import Mathlib

/-!
Verification development for the gitripper repository: a shallow embedding of
its URL resolver, ref resolver, archive fetcher, archive installer, embedded
metadata removal and top-level driver dispatch, together with theorems that
settle the specification claims against that embedding.

The repository ships three copies of the pipeline (the legacy monolith
gitripper.py, the package driver src/gitripper.py, and src/main.py); where
they disagree, each variant is embedded separately and named accordingly.
-/

namespace Gitripper

/-! ## Python string primitives -/

/-- ASCII whitespace recognised by Python's str.strip (Python additionally
strips other Unicode whitespace, which never occurs in the inputs of
interest here). -/
def pyIsSpace (c : Char) : Bool :=
  c = ' ' || c = '\t' || c = '\n' || c = '\r' || c = '\x0b' || c = '\x0c'

/-- Python str.strip(): drop leading and trailing whitespace. -/
def pyStripList (cs : List Char) : List Char :=
  ((cs.dropWhile pyIsSpace).reverse.dropWhile pyIsSpace).reverse

/-- Python str.removesuffix(".git"): drop a trailing ".git" if present. -/
def removeSuffixGit (cs : List Char) : List Char :=
  if cs.drop (cs.length - 4) = ['.', 'g', 'i', 't'] && decide (4 ≤ cs.length) then
    cs.take (cs.length - 4)
  else cs

/-- Consume a literal pattern at the front of the input, returning the
remainder (the anchored-literal part of an re.match). -/
def stripPfx : List Char → List Char → Option (List Char)
  | [], cs => some cs
  | _ :: _, [] => none
  | p :: ps, c :: cs => if c = p then stripPfx ps cs else none

/-! ## URL resolver

The three regexes of parse_github_url, specialised by hand:

* `https?://github\.com/([^/]+)/([^/]+)(/.*)?$` — after the literal prefix,
  group 1 is the maximal run of non-slash characters and must be followed by
  a slash; group 2 is again a maximal nonempty run of non-slash characters
  (so its remainder is empty or starts with a slash); the optional group
  `(/.*)?` with `.` not matching a newline and `$` matching at the end or
  just before a final newline accepts a remainder that is empty, or a slash
  followed by characters with a newline at most in final position.
* `git@github\.com:([^/]+)/([^/]+)$` — literal prefix, nonempty slash-free
  owner, a slash, then a nonempty slash-free repo running to the end.
* `ssh://git@github\.com/([^/]+)/([^/]+)$` — same shape, other prefix.
-/

/-- Remainder accepted by `.*$` in Python (no MULTILINE): a newline may occur
at most once and only as the final character. -/
def dotStarEndOk : List Char → Bool
  | [] => true
  | ['\n'] => true
  | c :: rest => c ≠ '\n' && dotStarEndOk rest

/-- Remainder accepted by `(/.*)?$` after a maximal non-slash run: empty, or
a slash followed by a `.*$`-acceptable tail. -/
def tailOk : List Char → Bool
  | [] => true
  | '/' :: u => dotStarEndOk u
  | _ => false

/-- `https?://github\.com/([^/]+)/([^/]+)(/.*)?$`, anchored. -/
def matchHttps (cs : List Char) : Option (String × String) :=
  match stripPfx "https://github.com/".toList cs <|>
      stripPfx "http://github.com/".toList cs with
  | none => none
  | some rest =>
    let o := rest.takeWhile (· ≠ '/')
    match o, rest.dropWhile (· ≠ '/') with
    | [], _ => none
    | _ :: _, [] => none
    | _ :: _, _ :: rest2 =>
      let rp := rest2.takeWhile (· ≠ '/')
      if rp.isEmpty then none
      else if tailOk (rest2.dropWhile (· ≠ '/')) then
        some (String.mk o, String.mk rp)
      else none

/-- `git@github\.com:([^/]+)/([^/]+)$`, anchored. -/
def matchGitAt (cs : List Char) : Option (String × String) :=
  match stripPfx "git@github.com:".toList cs with
  | none => none
  | some rest =>
    let o := rest.takeWhile (· ≠ '/')
    match o, rest.dropWhile (· ≠ '/') with
    | [], _ => none
    | _ :: _, [] => none
    | _ :: _, _ :: rest2 =>
      if rest2.isEmpty then none
      else if rest2.contains '/' then none
      else some (String.mk o, String.mk rest2)

/-- `ssh://git@github\.com/([^/]+)/([^/]+)$`, anchored. -/
def matchSshUrl (cs : List Char) : Option (String × String) :=
  match stripPfx "ssh://git@github.com/".toList cs with
  | none => none
  | some rest =>
    let o := rest.takeWhile (· ≠ '/')
    match o, rest.dropWhile (· ≠ '/') with
    | [], _ => none
    | _ :: _, [] => none
    | _ :: _, _ :: rest2 =>
      if rest2.isEmpty then none
      else if rest2.contains '/' then none
      else some (String.mk o, String.mk rest2)

/-- The first regex of the list that matches, as in both parse_github_url
implementations (https form, then SSH shorthand, then ssh:// form). -/
def matchGithubUrlForms (cs : List Char) : Option (String × String) :=
  matchHttps cs <|> matchGitAt cs <|> matchSshUrl cs

/-- `url.strip().removesuffix(".git")`, shared by both implementations. -/
def normalizeUrl (s : String) : List Char :=
  removeSuffixGit (pyStripList s.toList)

/-- parse_github_url from src/github_url_parser.py: the first matching regex
yields (owner, repo); `if not result or not all(result)` raises ValueError,
modelled as `none`. -/
def parse_github_url (s : String) : Option (String × String) :=
  match matchGithubUrlForms (normalizeUrl s) with
  | none => none
  | some (o, r) => if o.isEmpty || r.isEmpty then none else some (o, r)

/-- parse_github_url from src/gitripper.py lines 30-46: same matching, but
the fallback of the `next(...)` generator is `("", "")` — no exception is
ever raised. -/
def parse_github_url_gitripper (s : String) : String × String :=
  (matchGithubUrlForms (normalizeUrl s)).getD ("", "")

/-! ## Python exception model

Only the classification structure the drivers test is modelled: which
concrete exceptions are OSError instances (FileNotFoundError is, and
requests.RequestException derives from IOError, an alias of OSError),
which are RequestException instances, and which are CalledProcessError
instances. All constructors model subclasses of Exception, so an
`except Exception` clause catches every one of them. -/

inductive PyExn where
  | requestException (msg : String)
  | fileNotFoundError (msg : String)
  | osError (msg : String)
  | runtimeError (msg : String)
  | calledProcessError (msg : String)
  | valueError (msg : String)
  | badZipFile (msg : String)
  deriving Repr, DecidableEq

/-- str(e): the message carried by the exception. -/
def PyExn.message : PyExn → String
  | .requestException m => m
  | .fileNotFoundError m => m
  | .osError m => m
  | .runtimeError m => m
  | .calledProcessError m => m
  | .valueError m => m
  | .badZipFile m => m

/-- Membership in the OSError class: OSError itself, FileNotFoundError,
and requests.RequestException (a subclass of IOError = OSError). -/
def PyExn.isOSError : PyExn → Bool
  | .osError _ => true
  | .fileNotFoundError _ => true
  | .requestException _ => true
  | _ => false

/-- Membership in requests.RequestException. -/
def PyExn.isRequestException : PyExn → Bool
  | .requestException _ => true
  | _ => false

/-- Membership in subprocess.CalledProcessError. -/
def PyExn.isCalledProcessError : PyExn → Bool
  | .calledProcessError _ => true
  | _ => false

/-- Outcome of a driver run past the download stage: normal completion, a
sys.exit with a code after printing diagnostics to stderr, or an exception
that no handler caught (the interpreter then aborts with a traceback and
process status 1). -/
inductive RunOutcome where
  | completed
  | exited (code : Nat) (stderrLines : List String)
  | uncaught (e : PyExn)
  deriving Repr, DecidableEq

/-! ## Exit-code constants of src/main.py -/

def ERR_INVALID_URL : Nat := 2
def ERR_DEST_EXISTS : Nat := 3
def ERR_CLEANUP_FAILED : Nat := 4
def ERR_GIT_NOT_FOUND : Nat := 5
def ERR_DOWNLOAD_FAILED : Nat := 6
def ERR_EXTRACTION_FAILED : Nat := 7
def ERR_INIT_FAILED : Nat := 8

/-! ## Driver dispatch past ref resolution

Each variant's main runs download, then extraction, then (after the
best-effort remove_embedded_git) repository initialization, each inside a
try/except; the variants differ in which exception classes the except
clauses name. The stage results are passed in as `Except` values: `.ok`
for a stage that returns, `.error e` for a stage that raises `e`. -/

/-- src/gitripper.py (package driver, the one the test suite imports):
all three stages are guarded by `except Exception`, exiting 6, 7, 8. -/
def gitripperPipelineTail (download : Except PyExn String)
    (extractRes : Except PyExn Unit) (initRes : Except PyExn Unit) :
    RunOutcome :=
  match download with
  | .error e => .exited 6 ["Failed to download repository archive: " ++ e.message]
  | .ok _ =>
    match extractRes with
    | .error e => .exited 7 ["Failed to extract archive: " ++ e.message]
    | .ok _ =>
      match initRes with
      | .error e => .exited 8 ["Failed to initialize repository: " ++ e.message]
      | .ok _ => .completed

/-- src/main.py lines 116-144: download is guarded only by
`except RequestException`, extraction and initialization only by
`except OSError`; any other exception propagates uncaught. -/
def mainPyPipelineTail (download : Except PyExn String)
    (extractRes : Except PyExn Unit) (initRes : Except PyExn Unit) :
    RunOutcome :=
  match download with
  | .error e =>
    if e.isRequestException then
      .exited ERR_DOWNLOAD_FAILED ["Failed to download repository archive: " ++ e.message]
    else .uncaught e
  | .ok _ =>
    match extractRes with
    | .error e =>
      if e.isOSError then
        .exited ERR_EXTRACTION_FAILED ["Failed to extract archive: " ++ e.message]
      else .uncaught e
    | .ok _ =>
      match initRes with
      | .error e =>
        if e.isOSError then
          .exited ERR_INIT_FAILED ["Failed to initialize repository: " ++ e.message]
        else .uncaught e
      | .ok _ => .completed

/-- gitripper.py (legacy monolith) lines 378-415: download and extraction
are guarded by `except Exception` (6, 7); initialization exits 8 only for
subprocess.CalledProcessError and 9 for every other exception. -/
def legacyPipelineTail (download : Except PyExn String)
    (extractRes : Except PyExn Unit) (initRes : Except PyExn Unit) :
    RunOutcome :=
  match download with
  | .error e => .exited 6 ["Failed to download repository archive: " ++ e.message]
  | .ok _ =>
    match extractRes with
    | .error e => .exited 7 ["Failed to extract archive: " ++ e.message]
    | .ok _ =>
      match initRes with
      | .error e =>
        if e.isCalledProcessError then
          .exited 8 ["Git command failed: " ++ e.message]
        else .exited 9 ["Failed to initialize repository: " ++ e.message]
      | .ok _ => .completed

/-! ## Ref resolution -/

/-- Result of the ref-resolution step: the ref handed to the download
stage, whether the remote default-branch lookup was invoked, and the
console lines printed. -/
structure RefResolution where
  ref : String
  lookupInvoked : Bool
  console : List String
  deriving Repr, DecidableEq

/-- src/main.py lines 101-114: `ref = args.branch; if not ref:` — the
lookup is skipped only when the flag value is truthy, so a supplied empty
string still triggers the lookup; any lookup exception is downgraded to a
printed warning and the literal "main". -/
def resolveRef_mainPy (branch : Option String)
    (lookup : Except PyExn String) : RefResolution :=
  let branchFalsy : Bool := match branch with
    | none => true
    | some s => decide (s = "")
  if branchFalsy then
    match lookup with
    | .ok b => ⟨b, true, ["Using default branch '" ++ b ++ "'"]⟩
    | .error e =>
      ⟨"main", true,
        ["Warning: could not determine default branch: " ++ e.message ++ ". Using 'main'."]⟩
  else ⟨branch.getD "", false, []⟩

/-- src/gitripper.py lines 318-333 and gitripper.py lines 365-376:
`if ref is None:` — any supplied flag value, including the empty string,
short-circuits the lookup. Console lines follow src/gitripper.py; the
legacy monolith differs only in the wording of its warning line
("... via API: ... Falling back to 'main'."), not in control flow. -/
def resolveRef_gitripper (branch : Option String)
    (lookup : Except PyExn String) : RefResolution :=
  match branch with
  | some b => ⟨b, false, []⟩
  | none =>
    match lookup with
    | .ok b => ⟨b, true, ["Using default branch '" ++ b ++ "'"]⟩
    | .error e =>
      ⟨"main", true,
        ["Warning: could not determine default branch: " ++ e.message ++ ". Using 'main'."]⟩

/-! ## Default-branch lookup (src/default_branch_getter.py) -/

/-- The repository-metadata response as the code observes it: HTTP status,
the default_branch field of the JSON body when present, and the raw body
text. -/
structure RepoMetaResponse where
  status : Nat
  defaultBranch : Option String
  text : String

/-- get_default_branch: a None owner raises ValueError; HTTP 200 returns
`json().get("default_branch", "main")`; 404 raises FileNotFoundError;
anything else raises RuntimeError carrying the status and body. -/
def get_default_branch (owner : Option String) (repo : String)
    (r : RepoMetaResponse) : Except PyExn String :=
  match owner with
  | none => .error (.valueError "Owner cannot be None")
  | some o =>
    if r.status = 200 then .ok (r.defaultBranch.getD "main")
    else if r.status = 404 then
      .error (.fileNotFoundError ("Repository " ++ o ++ "/" ++ repo ++ " not found (404)."))
    else
      .error (.runtimeError ("Failed to get repo info: " ++ toString r.status ++ " " ++ r.text))

/-! ## Archive download (src/zip_utils.py, download_zip) -/

def GITHUB_API : String := "https://api.github.com"

/-- The chunk size passed to iter_content. -/
def CHUNK_SIZE : Nat := 8192

/-- The streamed archive response: HTTP status, body text, and the chunk
sequence that iter_content yields for a requested chunk size (each chunk a
byte list). -/
structure ZipResponse where
  status : Nat
  text : String
  chunks : Nat → List (List Nat)

/-- download_zip: on 200 the body is streamed chunk by chunk (empty chunks
skipped by `if chunk:`) into `<repo>-<ref>.zip` under the supplied
directory, returning the path and the written chunk sequence; 301/302
raise RuntimeError, 404 raises FileNotFoundError, anything else raises
RuntimeError with status and body. -/
def download_zip (owner repo ref : String) (destPath : String)
    (r : ZipResponse) : Except PyExn (String × List (List Nat)) :=
  if r.status = 200 then
    .ok (destPath ++ "/" ++ repo ++ "-" ++ ref ++ ".zip",
      (r.chunks CHUNK_SIZE).filter (fun c => !c.isEmpty))
  else if r.status = 301 ∨ r.status = 302 then
    .error (.runtimeError ("Unexpected redirect: " ++ toString r.status))
  else if r.status = 404 then
    .error (.fileNotFoundError ("Archive for " ++ owner ++ "/" ++ repo ++ "@" ++ ref ++ " not found (404)."))
  else
    .error (.runtimeError ("Failed to download archive: " ++ toString r.status ++ " " ++ r.text))

/-! ## Directory trees

A directory is a finite list of named entries; an entry is a file with
byte content (modelled as a string) or a subdirectory. A custom mutual
inductive keeps all recursions structural. Real directories never repeat
a name; where a proof needs that, it is an explicit hypothesis. -/

mutual

inductive FsNode where
  | file (content : String) : FsNode
  | dir (children : FsEntries) : FsNode

inductive FsEntries where
  | nil : FsEntries
  | cons (name : String) (node : FsNode) (rest : FsEntries) : FsEntries

end

/-- Directory test, as Path.is_dir reports it. -/
def FsNode.isDir : FsNode → Bool
  | .dir _ => true
  | .file _ => false

/-- Look an entry up by name (names are unique in a real directory, so
first match suffices). -/
def lookupE : FsEntries → String → Option FsNode
  | .nil, _ => none
  | .cons n v rest, m => if n = m then some v else lookupE rest m

/-- Whether a name is present. -/
def hasName (es : FsEntries) (n : String) : Bool :=
  (lookupE es n).isSome

/-- All names distinct, as in a real directory listing. -/
def namesNodup : FsEntries → Bool
  | .nil => true
  | .cons n _ rest => !hasName rest n && namesNodup rest

/-- Drop every entry carrying the given name (shutil.rmtree for a
directory, Path.unlink for a file). -/
def removeName : FsEntries → String → FsEntries
  | .nil, _ => .nil
  | .cons n v rest, m =>
    if n = m then removeName rest m else .cons n v (removeName rest m)

/-- List concatenation on entries. -/
def appendEnt : FsEntries → FsEntries → FsEntries
  | .nil, b => b
  | .cons n v r, b => .cons n v (appendEnt r b)

/-- One iteration of the install loop of extract_zip: if a same-named
target exists it is removed first, then the item is moved in. -/
def installEntry (dest : FsEntries) (n : String) (v : FsNode) : FsEntries :=
  appendEnt (removeName dest n) (.cons n v .nil)

/-- The whole install loop, items in iteration order. -/
def installAll : FsEntries → FsEntries → FsEntries
  | .nil, dest => dest
  | .cons n v rest, dest => installAll rest (installEntry dest n v)

/-- `[p for p in temp_path.iterdir() if p.is_dir()]`. -/
def dirEntries : FsEntries → FsEntries
  | .nil => .nil
  | .cons n v rest =>
    if v.isDir then .cons n v (dirEntries rest) else dirEntries rest

/-- Number of entries. -/
def countE : FsEntries → Nat
  | .nil => 0
  | .cons _ _ rest => countE rest + 1

/-- `top_level_dirs[0] if len(top_level_dirs) == 1 else temp_path`: the
entries the install loop iterates over — the single top-level directory's
children when there is exactly one top-level directory, the whole scratch
listing otherwise. -/
def sourceItems (scratch : FsEntries) : FsEntries :=
  match dirEntries scratch with
  | .cons _ (.dir children) .nil => children
  | _ => scratch

/-- Filesystem operations performed by extract_zip, in order. Only the
first touches the isolated scratch location; the rest touch the
destination. -/
inductive FsOp where
  | unpackToScratch
  | mkdirDest
  | removeDestEntry (name : String)
  | moveToDest (name : String)
  deriving Repr, DecidableEq

/-- The destination-side operations of the install loop. -/
def installOps : FsEntries → FsEntries → List FsOp
  | .nil, _ => []
  | .cons n v rest, dest =>
    (if hasName dest n then [FsOp.removeDestEntry n] else []) ++
      (FsOp.moveToDest n :: installOps rest (installEntry dest n v))

/-- extract_zip from src/zip_utils.py: `none` stands for a file ZipFile
cannot open; a zip whose namelist is empty raises
RuntimeError("Zip archive is empty.") before the scratch directory is even
created; otherwise the archive is fully unpacked into the isolated scratch
location, the destination directory is created if missing, and the chosen
source items are moved in one by one (same-named targets removed first).
The result pairs the outcome with the ordered filesystem operations. -/
def extract_zip (zip : Option FsEntries) (dest : FsEntries) :
    Except String FsEntries × List FsOp :=
  match zip with
  | none => (.error "BadZipFile: File is not a zip file", [])
  | some scratch =>
    match scratch with
    | .nil => (.error "Zip archive is empty.", [])
    | .cons _ _ _ =>
      (.ok (installAll (sourceItems scratch) dest),
        FsOp.unpackToScratch :: FsOp.mkdirDest ::
          installOps (sourceItems scratch) dest)

/-- The installed tree of a successful extraction (the prior destination
when the run failed). -/
def okOr (r : Except String FsEntries) (d : FsEntries) : FsEntries :=
  match r with
  | .ok x => x
  | .error _ => d

/-- The install loop of extract_zip with fallible destination operations:
`moveFails n` says that shutil.move raises OSError while installing the
entry named n — at which point any same-named destination entry has
already been removed by rmtree/unlink (the source wraps none of these in
a try/except, so the first OSError propagates out of extract_zip and the
destination keeps every effect performed so far). Returns the outcome,
the resulting destination contents, and the destination-side operations
performed. -/
def installAllF (moveFails : String → Bool) :
    FsEntries → FsEntries → Except String Unit × FsEntries × List FsOp
  | .nil, dest => (.ok (), dest, [])
  | .cons n v rest, dest =>
    let removeOps := if hasName dest n then [FsOp.removeDestEntry n] else []
    if moveFails n then
      (.error ("OSError while moving " ++ n), removeName dest n, removeOps)
    else
      let r := installAllF moveFails rest (installEntry dest n v)
      (r.1, r.2.1, removeOps ++ (FsOp.moveToDest n :: r.2.2))

/-- extract_zip with the fallible install loop: the zip-open and
emptiness failures still happen before any destination operation, but a
move failure aborts the run mid-install, leaving the partially-updated
destination behind. Returns the outcome, the final destination contents,
and the ordered filesystem operations. -/
def extract_zip_fallible (moveFails : String → Bool) (zip : Option FsEntries)
    (dest : FsEntries) : Except String Unit × FsEntries × List FsOp :=
  match zip with
  | none => (.error "BadZipFile: File is not a zip file", dest, [])
  | some .nil => (.error "Zip archive is empty.", dest, [])
  | some (.cons a v b) =>
    let r := installAllF moveFails (sourceItems (.cons a v b)) dest
    (r.1, r.2.1, FsOp.unpackToScratch :: FsOp.mkdirDest :: r.2.2)

/-! ## Embedded .git removal (src/git_utils.py, remove_embedded_git)

os.walk visits each directory top-down and the code deletes any child
directory named ".git" with shutil.rmtree; on OSError the warning is
printed and the walk continues, descending into the still-present
directory. Files named ".git" are listed in walk's files, not dirs, and
are never touched. The removal oracle `ok` says whether rmtree succeeds
at a given path (relative to the walk root); warnings collect the paths
whose removal failed. -/

def scrubEntries (ok : List String → Bool) (path : List String) :
    FsEntries → FsEntries × List (List String)
  | .nil => (.nil, [])
  | .cons n v rest =>
    let restR := scrubEntries ok path rest
    match v with
    | .file c => (.cons n (.file c) restR.1, restR.2)
    | .dir cs =>
      if n = ".git" then
        if ok (path ++ [n]) then restR
        else
          let vr := scrubEntries ok (path ++ [n]) cs
          (.cons n (.dir vr.1) restR.1, (path ++ [n]) :: (vr.2 ++ restR.2))
      else
        let vr := scrubEntries ok (path ++ [n]) cs
        (.cons n (.dir vr.1) restR.1, vr.2 ++ restR.2)

/-- remove_embedded_git with every rmtree succeeding: the resulting tree. -/
def remove_embedded_git (dest : FsEntries) : FsEntries :=
  (scrubEntries (fun _ => true) [] dest).1

/-- No directory named ".git" anywhere in the tree. -/
def noGitEntries : FsEntries → Bool
  | .nil => true
  | .cons n v rest =>
    match v with
    | .file _ => noGitEntries rest
    | .dir cs => !(n = ".git" : Bool) && noGitEntries cs && noGitEntries rest

/-- Follow a nonempty path of names down the tree. -/
def lookupPath : FsEntries → List String → Option FsNode
  | _, [] => none
  | es, [n] => lookupE es n
  | es, n :: rest =>
    match lookupE es n with
    | some (.dir cs) => lookupPath cs rest
    | _ => none

/-- What sanitation must preserve about a path: whether an entry exists
there, whether it is a file or a directory, and a file's content (a
directory's children may legitimately lose .git subdirectories). -/
def entryShape (es : FsEntries) (p : List String) : Option (Option String) :=
  match lookupPath es p with
  | none => none
  | some (.file c) => some (some c)
  | some (.dir _) => some none

/-! ## Helper lemmas about the install loop -/

theorem lookupE_appendEnt : ∀ (a b : FsEntries) (n : String),
    lookupE (appendEnt a b) n =
      match lookupE a n with
      | some v => some v
      | none => lookupE b n
  | .nil, _, _ => rfl
  | .cons m v rest, b, n => by
    have ih := lookupE_appendEnt rest b n
    by_cases h : m = n <;> simp [appendEnt, lookupE, h, ih]

theorem lookupE_removeName_ne : ∀ (d : FsEntries) (m n : String), m ≠ n →
    lookupE (removeName d m) n = lookupE d n
  | .nil, _, _, _ => rfl
  | .cons k v rest, m, n, h => by
    have ih := lookupE_removeName_ne rest m n h
    by_cases hk : k = m
    · subst hk
      simp [removeName, lookupE, h, ih]
    · by_cases hn : k = n <;> simp [removeName, lookupE, hk, hn, ih, Ne.symm h]

theorem lookupE_removeName_self : ∀ (d : FsEntries) (m : String),
    lookupE (removeName d m) m = none
  | .nil, _ => rfl
  | .cons k v rest, m => by
    have ih := lookupE_removeName_self rest m
    by_cases hk : k = m <;> simp [removeName, lookupE, hk, ih]

theorem lookupE_installEntry_ne (d : FsEntries) (m n : String) (v : FsNode)
    (h : m ≠ n) : lookupE (installEntry d m v) n = lookupE d n := by
  unfold installEntry
  rw [lookupE_appendEnt, lookupE_removeName_ne d m n h]
  cases lookupE d n with
  | none => simp [lookupE, h]
  | some w => rfl

theorem lookupE_installEntry_self (d : FsEntries) (n : String) (v : FsNode) :
    lookupE (installEntry d n v) n = some v := by
  unfold installEntry
  rw [lookupE_appendEnt, lookupE_removeName_self]
  simp [lookupE]

theorem lookupE_installAll_not_hasName : ∀ (items d : FsEntries) (n : String),
    hasName items n = false →
    lookupE (installAll items d) n = lookupE d n
  | .nil, _, _, _ => rfl
  | .cons m v rest, d, n, h => by
    have hmn : m ≠ n := by
      intro he
      subst he
      simp [hasName, lookupE] at h
    have hrest : hasName rest n = false := by
      simpa [hasName, lookupE, hmn] using h
    rw [installAll,
      lookupE_installAll_not_hasName rest (installEntry d m v) n hrest,
      lookupE_installEntry_ne d m n v hmn]

theorem lookupE_installAll_mem : ∀ (items d : FsEntries) (n : String)
    (v : FsNode), namesNodup items = true →
    lookupE items n = some v →
    lookupE (installAll items d) n = some v
  | .nil, _, _, _, _, h => by simp [lookupE] at h
  | .cons m w rest, d, n, v, hnd, h => by
    have hnd2 : hasName rest m = false ∧ namesNodup rest = true := by
      simpa [namesNodup] using hnd
    by_cases hmn : m = n
    · subst hmn
      have hw : w = v := by simpa [lookupE] using h
      subst hw
      rw [installAll,
        lookupE_installAll_not_hasName rest (installEntry d m w) m hnd2.1,
        lookupE_installEntry_self]
    · have h2 : lookupE rest n = some v := by simpa [lookupE, hmn] using h
      rw [installAll]
      exact lookupE_installAll_mem rest (installEntry d m w) n v hnd2.2 h2

/-! ## Helper lemmas about embedded-.git removal -/

theorem noGitEntries_scrub : ∀ (path : List String) (es : FsEntries),
    noGitEntries (scrubEntries (fun _ => true) path es).1 = true
  | _, .nil => rfl
  | path, .cons n (.file c) rest => by
    have ih := noGitEntries_scrub path rest
    simp [scrubEntries, noGitEntries, ih]
  | path, .cons n (.dir cs) rest => by
    have ih := noGitEntries_scrub path rest
    have ihc := noGitEntries_scrub (path ++ [n]) cs
    by_cases h : n = ".git" <;>
      simp [scrubEntries, noGitEntries, h, ih, ihc]

theorem lookupE_scrub : ∀ (ok : List String → Bool) (path : List String)
    (es : FsEntries) (n : String), n ≠ ".git" →
    lookupE (scrubEntries ok path es).1 n =
      match lookupE es n with
      | none => none
      | some (.file c) => some (.file c)
      | some (.dir cs) => some (.dir (scrubEntries ok (path ++ [n]) cs).1)
  | _, _, .nil, _, _ => rfl
  | ok, path, .cons m (.file c) rest, n, h => by
    have ih := lookupE_scrub ok path rest n h
    by_cases hm : m = n <;> simp [scrubEntries, lookupE, hm, ih]
  | ok, path, .cons m (.dir cs) rest, n, h => by
    have ih := lookupE_scrub ok path rest n h
    by_cases hg : m = ".git"
    · subst hg
      have hm : ¬(".git" = n) := fun he => h he.symm
      by_cases hok : ok (path ++ [".git"]) = true <;>
        simp [scrubEntries, lookupE, hok, hm, ih]
    · by_cases hm : m = n
      · subst hm
        simp [scrubEntries, lookupE, hg]
      · simp [scrubEntries, lookupE, hg, hm, ih]

theorem entryShape_scrub (ok : List String → Bool) :
    ∀ (p : List String) (path : List String) (es : FsEntries),
      ".git" ∉ p →
      entryShape (scrubEntries ok path es).1 p = entryShape es p
  | [], _, _, _ => rfl
  | [n], path, es, hp => by
    have hn : n ≠ ".git" := by
      intro he; exact hp (by simp [he])
    have h := lookupE_scrub ok path es n hn
    unfold entryShape lookupPath
    rw [h]
    cases lookupE es n with
    | none => rfl
    | some v => cases v <;> rfl
  | n :: m :: rest, path, es, hp => by
    have hn : n ≠ ".git" := by
      intro he; exact hp (by simp [he])
    have hrest : ".git" ∉ m :: rest := by
      intro he; exact hp (List.mem_cons_of_mem _ he)
    have h := lookupE_scrub ok path es n hn
    unfold entryShape lookupPath
    rw [h]
    cases hcase : lookupE es n with
    | none => rfl
    | some v =>
      cases v with
      | file c => rfl
      | dir cs =>
        have ih := entryShape_scrub ok (m :: rest) (path ++ [n]) cs hrest
        simpa [entryShape] using ih

theorem scrub_warnings : ∀ (ok : List String → Bool) (path : List String)
    (es : FsEntries) (w : List String),
    w ∈ (scrubEntries ok path es).2 →
    ok w = false ∧ w.getLast? = some ".git"
  | _, _, .nil, _, hw => absurd hw (by simp [scrubEntries])
  | ok, path, .cons n (.file c) rest, w, hw => by
    have hw2 : w ∈ (scrubEntries ok path rest).2 := by
      simpa [scrubEntries] using hw
    exact scrub_warnings ok path rest w hw2
  | ok, path, .cons n (.dir cs) rest, w, hw => by
    by_cases hg : n = ".git"
    · subst hg
      by_cases hok : ok (path ++ [".git"]) = true
      · have hw2 : w ∈ (scrubEntries ok path rest).2 := by
          simpa [scrubEntries, hok] using hw
        exact scrub_warnings ok path rest w hw2
      · have hw2 : w = path ++ [".git"] ∨
            (w ∈ (scrubEntries ok (path ++ [".git"]) cs).2 ∨
              w ∈ (scrubEntries ok path rest).2) := by
          simpa [scrubEntries, hok] using hw
        rcases hw2 with he | hm | hm
        · subst he
          exact ⟨by simpa using hok, List.getLast?_concat _⟩
        · exact scrub_warnings ok (path ++ [".git"]) cs w hm
        · exact scrub_warnings ok path rest w hm
    · have hw2 : w ∈ (scrubEntries ok (path ++ [n]) cs).2 ∨
          w ∈ (scrubEntries ok path rest).2 := by
        simpa [scrubEntries, hg] using hw
      rcases hw2 with hm | hm
      · exact scrub_warnings ok (path ++ [n]) cs w hm
      · exact scrub_warnings ok path rest w hm

/-! ## Claim theorems -/

/-- C1: evaluation of the URL resolver at the claimed inputs. The module
src/github_url_parser.py behaves exactly as claimed: every accepted form
(https, https with .git, https with a trailing path segment, SSH
shorthand, ssh:// form) yields the (owner, repo) pair, and the three
rejected examples fail with the invalid-URL error (modelled as `none`).
The copy of parse_github_url in src/gitripper.py lines 30-46 — the one
its own driver calls — instead returns ("", "") on every invalid input
and never raises, contradicting the claim, the repository's own tests
(test_parse_github_url_invalid) and the FIXME note above it. -/
theorem c1_url_resolver_eval :
    parse_github_url "https://github.com/user/repo" = some ("user", "repo")
    ∧ parse_github_url "http://github.com/user/repo.git" = some ("user", "repo")
    ∧ parse_github_url "https://github.com/user/repo/tree/main" = some ("user", "repo")
    ∧ parse_github_url "git@github.com:user/repo" = some ("user", "repo")
    ∧ parse_github_url "ssh://git@github.com/user/repo" = some ("user", "repo")
    ∧ parse_github_url "https://gitlab.com/user/repo" = none
    ∧ parse_github_url "not a url" = none
    ∧ parse_github_url "user/repo" = none
    ∧ parse_github_url_gitripper "user/repo" = ("", "")
    ∧ parse_github_url_gitripper "https://gitlab.com/user/repo" = ("", "")
    ∧ parse_github_url_gitripper "not a url" = ("", "")
    ∧ parse_github_url_gitripper "https://github.com/user/repo" = ("user", "repo") :=
  ⟨rfl, rfl, rfl, rfl, rfl, rfl, rfl, rfl, rfl, rfl, rfl, rfl⟩

/-- C2: exit-code dispatch of the drivers. The package driver
src/gitripper.py exits 6, 7, 8 with a one-line stderr diagnostic for any
exception raised by download, extraction or initialization, as the claim
and the spec's exit-code table state. The driver src/main.py, however,
catches only RequestException around download and only OSError around
extraction and initialization, so the RuntimeError and
CalledProcessError failures its own stages raise propagate uncaught
(interpreter abort, process status 1, not 6/7/8); and the legacy monolith
gitripper.py exits 9, a code outside the table, for initialization
failures other than CalledProcessError. -/
theorem c2_exit_code_dispatch :
    (∀ (e : PyExn) (r2 r3 : Except PyExn Unit),
      gitripperPipelineTail (.error e) r2 r3 =
        .exited 6 ["Failed to download repository archive: " ++ e.message])
    ∧ (∀ (e : PyExn) (p : String) (r3 : Except PyExn Unit),
      gitripperPipelineTail (.ok p) (.error e) r3 =
        .exited 7 ["Failed to extract archive: " ++ e.message])
    ∧ (∀ (e : PyExn) (p : String),
      gitripperPipelineTail (.ok p) (.ok ()) (.error e) =
        .exited 8 ["Failed to initialize repository: " ++ e.message])
    ∧ mainPyPipelineTail
        (.error (.runtimeError "Failed to download archive: 500 boom")) (.ok ()) (.ok ()) =
        .uncaught (.runtimeError "Failed to download archive: 500 boom")
    ∧ mainPyPipelineTail (.ok "repo-main.zip")
        (.error (.runtimeError "Zip archive is empty.")) (.ok ()) =
        .uncaught (.runtimeError "Zip archive is empty.")
    ∧ mainPyPipelineTail (.ok "repo-main.zip") (.ok ())
        (.error (.calledProcessError "Command git commit returned non-zero exit status 1.")) =
        .uncaught (.calledProcessError "Command git commit returned non-zero exit status 1.")
    ∧ legacyPipelineTail (.ok "repo-main.zip") (.ok ())
        (.error (.calledProcessError "Command git commit returned non-zero exit status 1.")) =
        .exited 8 ["Git command failed: Command git commit returned non-zero exit status 1."]
    ∧ legacyPipelineTail (.ok "repo-main.zip") (.ok ())
        (.error (.osError "No such file or directory")) =
        .exited 9 ["Failed to initialize repository: No such file or directory"] :=
  ⟨fun _ _ _ => rfl, fun _ _ _ => rfl, fun _ _ => rfl, rfl, rfl, rfl, rfl, rfl⟩

/-- C3 counterexample: a scratch listing with exactly one top-level
directory entry and one top-level file entry. The code takes the
singleton of the directory filter as the source, so only the wrapper's
contents are installed and the top-level file README is omitted from the
installed tree, although it was an extracted entry. -/
theorem c3_stray_file_omitted :
    (extract_zip (some (.cons "wrapper" (.dir (.cons "a.txt" (.file "hello") .nil))
        (.cons "README" (.file "readme") .nil))) .nil).1 =
      .ok (.cons "a.txt" (.file "hello") .nil)
    ∧ lookupE (okOr (extract_zip (some (.cons "wrapper"
        (.dir (.cons "a.txt" (.file "hello") .nil))
        (.cons "README" (.file "readme") .nil))) .nil).1 .nil) "README" = none
    ∧ lookupE (.cons "wrapper" (.dir (.cons "a.txt" (.file "hello") .nil))
        (.cons "README" (.file "readme") .nil)) "README" =
      some (.file "readme") :=
  ⟨rfl, rfl, rfl⟩

/-- C3 (amended): extract_zip keys normalization on the number of
top-level directory entries of the scratch listing, regardless of
top-level file entries. When that number is exactly one, precisely that
directory's contents are installed (so sibling top-level files are
omitted); when it is not one, every top-level entry is installed as-is
and none is omitted. -/
theorem c3_layout_normalization :
    ∀ (scratch dest : FsEntries),
      (∀ (n : String) (children : FsEntries),
        dirEntries scratch = .cons n (.dir children) .nil →
        (extract_zip (some scratch) dest).1 = .ok (installAll children dest))
      ∧ (countE (dirEntries scratch) ≠ 1 → scratch ≠ .nil →
        (extract_zip (some scratch) dest).1 = .ok (installAll scratch dest))
      ∧ (countE (dirEntries scratch) ≠ 1 → namesNodup scratch = true →
        ∀ (n : String) (v : FsNode), lookupE scratch n = some v →
        lookupE (okOr (extract_zip (some scratch) dest).1 dest) n = some v) := by
  intro scratch dest
  have hsrc : countE (dirEntries scratch) ≠ 1 → sourceItems scratch = scratch := by
    intro hcount
    unfold sourceItems
    cases hd : dirEntries scratch with
    | nil => rfl
    | cons n w tail =>
      cases w with
      | file c => rfl
      | dir ch =>
        cases tail with
        | nil => exact absurd (by simp [hd, countE]) hcount
        | cons x y z => rfl
  refine ⟨?_, ?_, ?_⟩
  · intro n children h
    cases scratch with
    | nil => simp [dirEntries] at h
    | cons a v b => simp [extract_zip, sourceItems, h]
  · intro hcount hne
    cases scratch with
    | nil => exact absurd rfl hne
    | cons a v b => simp [extract_zip, hsrc hcount]
  · intro hcount hnd n v hl
    cases scratch with
    | nil => simp [lookupE] at hl
    | cons a w b =>
      have hres : (extract_zip (some (.cons a w b)) dest).1 =
          .ok (installAll (.cons a w b) dest) := by
        simp [extract_zip, hsrc hcount]
      rw [hres]
      exact lookupE_installAll_mem (.cons a w b) dest n v hnd hl

/-- C3 witness: the spec's round-trip archive (a single wrapper directory
holding file.txt) installs exactly the wrapper's contents, and a
two-file scratch (no top-level directory) installs both entries as-is. -/
theorem c3_witness :
    (extract_zip (some (.cons "wrapper"
        (.dir (.cons "file.txt" (.file "hello world") .nil)) .nil)) .nil).1 =
      .ok (.cons "file.txt" (.file "hello world") .nil)
    ∧ lookupE (okOr (extract_zip (some (.cons "a" (.file "x")
        (.cons "b" (.file "y") .nil))) .nil).1 .nil) "b" = some (.file "y") := by
  constructor
  · exact (c3_layout_normalization
      (.cons "wrapper" (.dir (.cons "file.txt" (.file "hello world") .nil)) .nil)
      .nil).1 "wrapper" (.cons "file.txt" (.file "hello world") .nil) rfl
  · exact (c3_layout_normalization
      (.cons "a" (.file "x") (.cons "b" (.file "y") .nil)) .nil).2.2
      (by decide) rfl "b" (.file "y") rfl

/-- When no installed item's move fails, the fallible install loop
agrees with the infallible model: it succeeds, producing the same
installed tree and the same destination-side operations. -/
theorem installAllF_ok (moveFails : String → Bool) :
    ∀ (items dest : FsEntries),
      (∀ n, hasName items n = true → moveFails n = false) →
      installAllF moveFails items dest =
        (.ok (), installAll items dest, installOps items dest)
  | .nil, _, _ => rfl
  | .cons n v rest, dest, h => by
    have hn : moveFails n = false := h n (by simp [hasName, lookupE])
    have hrest : ∀ m, hasName rest m = true → moveFails m = false := by
      intro m hm
      apply h m
      by_cases hnm : n = m
      · simp [hasName, lookupE, hnm]
      · simpa [hasName, lookupE, hnm] using hm
    have ih := installAllF_ok moveFails rest (installEntry dest n v) hrest
    simp [installAllF, installAll, installOps, hn, ih]

/-- C4 counterexample: a failing run of extract_zip that corrupts the
pre-existing destination. The archive holds two top-level files "a" and
"b"; the destination already holds entries "a" and "keep". Installing
"a" first removes the same-named pre-existing entry (rmtree/unlink),
then shutil.move raises OSError: extract_zip propagates the error, and
the destination has lost its pre-existing entry "a" — a failing run
after which the pre-existing destination contents are corrupted. -/
theorem c4_mid_install_failure_corrupts :
    extract_zip_fallible (fun n => decide (n = "a"))
        (some (.cons "a" (.file "new") (.cons "b" (.file "x") .nil)))
        (.cons "a" (.file "old") (.cons "keep" (.file "k") .nil)) =
      (.error "OSError while moving a",
        .cons "keep" (.file "k") .nil,
        [.unpackToScratch, .mkdirDest, .removeDestEntry "a"])
    ∧ lookupE (.cons "a" (.file "old") (.cons "keep" (.file "k") .nil)) "a" =
      some (.file "old")
    ∧ lookupE (extract_zip_fallible (fun n => decide (n = "a"))
        (some (.cons "a" (.file "new") (.cons "b" (.file "x") .nil)))
        (.cons "a" (.file "old") (.cons "keep" (.file "k") .nil))).2.1 "a" =
      none :=
  ⟨rfl, rfl, rfl⟩

/-- C4 (amended): an archive with zero entries fails with "Zip archive
is empty." before any filesystem operation, whatever the move-failure
pattern, and likewise an unreadable archive — failures of the archive
handling itself leave the destination untouched, because the archive is
unpacked into an isolated scratch location and never directly into the
destination. With no failing move, these are the only failing runs (the
fallible loop then coincides with the infallible install model); a
failing move during the install loop, however, is a failing run that can
leave the destination partially updated, as the counterexample shows. -/
theorem c4_archive_failures_leave_dest_untouched :
    (∀ (moveFails : String → Bool) (dest : FsEntries),
      extract_zip_fallible moveFails (some .nil) dest =
        (.error "Zip archive is empty.", dest, []))
    ∧ (∀ (moveFails : String → Bool) (dest : FsEntries),
      extract_zip_fallible moveFails none dest =
        (.error "BadZipFile: File is not a zip file", dest, []))
    ∧ (∀ (zip : Option FsEntries) (dest : FsEntries) (msg : String),
      (extract_zip_fallible (fun _ => false) zip dest).1 = .error msg →
      (extract_zip_fallible (fun _ => false) zip dest).2.1 = dest
      ∧ (extract_zip_fallible (fun _ => false) zip dest).2.2 = [])
    ∧ (∀ (moveFails : String → Bool) (items dest : FsEntries),
      (∀ n, hasName items n = true → moveFails n = false) →
      installAllF moveFails items dest =
        (.ok (), installAll items dest, installOps items dest)) := by
  refine ⟨fun _ _ => rfl, fun _ _ => rfl, ?_, installAllF_ok⟩
  intro zip dest msg h
  match zip with
  | none => exact ⟨rfl, rfl⟩
  | some .nil => exact ⟨rfl, rfl⟩
  | some (.cons a v b) =>
    have hok := installAllF_ok (fun _ => false) (sourceItems (.cons a v b))
      dest (fun _ _ => rfl)
    simp [extract_zip_fallible, hok] at h

/-- C4 witness: the empty archive at a nonempty destination leaves it
untouched under any failure pattern, and the fallible loop with no
failing move matches the infallible install of a single file. -/
theorem c4_witness :
    extract_zip_fallible (fun _ => false) (some FsEntries.nil)
        (.cons "keep" (.file "k") .nil) =
      (.error "Zip archive is empty.", .cons "keep" (.file "k") .nil, [])
    ∧ (extract_zip_fallible (fun _ => false) (some FsEntries.nil)
        (.cons "keep" (.file "k") .nil)).2.1 =
      .cons "keep" (.file "k") .nil
    ∧ installAllF (fun _ => false) (.cons "x" (.file "new") .nil) .nil =
      (.ok (), installAll (.cons "x" (.file "new") .nil) .nil,
        installOps (.cons "x" (.file "new") .nil) .nil) :=
  ⟨c4_archive_failures_leave_dest_untouched.1 _ _,
   (c4_archive_failures_leave_dest_untouched.2.2.1 (some .nil)
     (.cons "keep" (.file "k") .nil) "Zip archive is empty." rfl).1,
   c4_archive_failures_leave_dest_untouched.2.2.2 _
     (.cons "x" (.file "new") .nil) .nil (fun _ _ => rfl)⟩

/-- C5 counterexample: under src/main.py's `if not ref:` test, the
explicitly supplied ref "" (an empty --branch flag) does not
short-circuit: the remote lookup is invoked and its result replaces the
supplied ref. -/
theorem c5_empty_branch_invokes_lookup :
    resolveRef_mainPy (some "") (.ok "master") =
      ⟨"master", true, ["Using default branch 'master'"]⟩
    ∧ (resolveRef_mainPy (some "") (.ok "master")).lookupInvoked = true
    ∧ (resolveRef_mainPy (some "") (.ok "master")).ref ≠ "" :=
  ⟨rfl, rfl, by decide⟩

/-- C5 (amended): a supplied nonempty ref is returned unchanged and the
remote default-branch lookup is never invoked; in the src/gitripper.py
and gitripper.py drivers (`if ref is None:`) this holds for every
supplied ref, including the empty string, while src/main.py
(`if not ref:`) requires the ref to be nonempty. -/
theorem c5_explicit_ref_short_circuits :
    (∀ (b : String) (lookup : Except PyExn String), b ≠ "" →
      resolveRef_mainPy (some b) lookup = ⟨b, false, []⟩)
    ∧ (∀ (b : String) (lookup : Except PyExn String),
      resolveRef_gitripper (some b) lookup = ⟨b, false, []⟩) := by
  constructor
  · intro b lookup hb
    simp [resolveRef_mainPy, hb]
  · intro b lookup
    rfl

/-- C5 witness: the explicit ref "develop" short-circuits even a failing
lookup in both drivers. -/
theorem c5_witness :
    resolveRef_mainPy (some "develop") (.error (.runtimeError "API error")) =
      ⟨"develop", false, []⟩
    ∧ resolveRef_gitripper (some "develop") (.error (.runtimeError "API error")) =
      ⟨"develop", false, []⟩ :=
  ⟨c5_explicit_ref_short_circuits.1 "develop" _ (by decide),
   c5_explicit_ref_short_circuits.2 "develop" _⟩

/-- C6: when no ref flag is given and the remote default-branch lookup
raises any exception — including the FileNotFoundError of the 404
repository-not-found case — the driver prints a warning, resolves the
ref to the literal "main", and the resolution step returns normally so
the run continues. -/
theorem c6_lookup_failure_falls_back :
    (∀ e : PyExn, resolveRef_mainPy none (.error e) =
      ⟨"main", true,
        ["Warning: could not determine default branch: " ++ e.message ++ ". Using 'main'."]⟩)
    ∧ resolveRef_mainPy none
        (.error (.fileNotFoundError "Repository user/repo not found (404).")) =
      ⟨"main", true,
        ["Warning: could not determine default branch: Repository user/repo not found (404).. Using 'main'."]⟩
    ∧ (∀ e : PyExn, resolveRef_gitripper none (.error e) =
      ⟨"main", true,
        ["Warning: could not determine default branch: " ++ e.message ++ ". Using 'main'."]⟩) :=
  ⟨fun _ => rfl, by decide, fun _ => rfl⟩

/-- C7: get_default_branch returns the default_branch field on HTTP 200,
returns "main" on 200 when the field is absent, fails with the
repository-not-found error on 404, and fails with the generic error
carrying the status and body on every other status. -/
theorem c7_default_branch_cases :
    ∀ (o repo : String) (r : RepoMetaResponse),
      (r.status = 200 → ∀ b, r.defaultBranch = some b →
        get_default_branch (some o) repo r = .ok b)
      ∧ (r.status = 200 → r.defaultBranch = none →
        get_default_branch (some o) repo r = .ok "main")
      ∧ (r.status = 404 →
        get_default_branch (some o) repo r =
          .error (.fileNotFoundError
            ("Repository " ++ o ++ "/" ++ repo ++ " not found (404).")))
      ∧ (r.status ≠ 200 → r.status ≠ 404 →
        get_default_branch (some o) repo r =
          .error (.runtimeError
            ("Failed to get repo info: " ++ toString r.status ++ " " ++ r.text))) := by
  intro o repo r
  refine ⟨?_, ?_, ?_, ?_⟩
  · intro h b hb
    simp [get_default_branch, h, hb]
  · intro h hb
    simp [get_default_branch, h, hb]
  · intro h
    simp [get_default_branch, h]
  · intro h1 h2
    simp [get_default_branch, h1, h2]

/-- C7 witness: the four cases at concrete responses. -/
theorem c7_witness :
    get_default_branch (some "owner") "repo" ⟨200, some "develop", "body"⟩ = .ok "develop"
    ∧ get_default_branch (some "owner") "repo" ⟨200, none, "body"⟩ = .ok "main"
    ∧ get_default_branch (some "owner") "repo" ⟨404, none, "nf"⟩ =
      .error (.fileNotFoundError "Repository owner/repo not found (404).")
    ∧ get_default_branch (some "owner") "repo" ⟨500, none, "Server Error"⟩ =
      .error (.runtimeError "Failed to get repo info: 500 Server Error") := by
  refine ⟨(c7_default_branch_cases "owner" "repo" _).1 rfl "develop" rfl,
    (c7_default_branch_cases "owner" "repo" _).2.1 rfl rfl, ?_, ?_⟩
  · exact (c7_default_branch_cases "owner" "repo" ⟨404, none, "nf"⟩).2.2.1 rfl
  · exact (c7_default_branch_cases "owner" "repo" ⟨500, none, "Server Error"⟩).2.2.2
      (by decide) (by decide)

/-- C8: download_zip on HTTP 200 writes the iter_content chunks requested
at the fixed CHUNK_SIZE, skipping empty chunks, to <repo>-<ref>.zip in
the supplied directory and returns that path; 301/302 fail with the
unexpected-redirect error, 404 with the archive-not-found error, and any
other status with the generic error carrying status and body. -/
theorem c8_download_cases :
    ∀ (owner repo ref destPath : String) (r : ZipResponse),
      (r.status = 200 →
        download_zip owner repo ref destPath r =
          .ok (destPath ++ "/" ++ repo ++ "-" ++ ref ++ ".zip",
            (r.chunks CHUNK_SIZE).filter (fun c => !c.isEmpty)))
      ∧ (r.status = 301 ∨ r.status = 302 →
        download_zip owner repo ref destPath r =
          .error (.runtimeError ("Unexpected redirect: " ++ toString r.status)))
      ∧ (r.status = 404 →
        download_zip owner repo ref destPath r =
          .error (.fileNotFoundError
            ("Archive for " ++ owner ++ "/" ++ repo ++ "@" ++ ref ++ " not found (404).")))
      ∧ (r.status ≠ 200 → r.status ≠ 301 → r.status ≠ 302 → r.status ≠ 404 →
        download_zip owner repo ref destPath r =
          .error (.runtimeError
            ("Failed to download archive: " ++ toString r.status ++ " " ++ r.text))) := by
  intro owner repo ref destPath r
  refine ⟨?_, ?_, ?_, ?_⟩
  · intro h
    simp [download_zip, h]
  · intro h
    rcases h with h | h <;> simp [download_zip, h]
  · intro h
    simp [download_zip, h]
  · intro h1 h2 h3 h4
    simp [download_zip, h1, h2, h3, h4]

/-- C8 witness: the four cases at concrete responses; the 200 case shows
the empty chunk skipped and the file name <repo>-<ref>.zip. -/
theorem c8_witness :
    download_zip "owner" "repo" "main" "/tmp/t"
        ⟨200, "", fun _ => [[104, 105], [], [33]]⟩ =
      .ok ("/tmp/t/repo-main.zip", [[104, 105], [33]])
    ∧ download_zip "owner" "repo" "main" "/tmp/t" ⟨302, "", fun _ => []⟩ =
      .error (.runtimeError "Unexpected redirect: 302")
    ∧ download_zip "owner" "repo" "main" "/tmp/t" ⟨404, "", fun _ => []⟩ =
      .error (.fileNotFoundError "Archive for owner/repo@main not found (404).")
    ∧ download_zip "owner" "repo" "main" "/tmp/t" ⟨500, "Server Error", fun _ => []⟩ =
      .error (.runtimeError "Failed to download archive: 500 Server Error") := by
  refine ⟨(c8_download_cases "owner" "repo" "main" "/tmp/t" _).1 rfl,
    (c8_download_cases "owner" "repo" "main" "/tmp/t" _).2.1 (Or.inr rfl), ?_, ?_⟩
  · exact (c8_download_cases "owner" "repo" "main" "/tmp/t"
      ⟨404, "", fun _ => []⟩).2.2.1 rfl
  · exact (c8_download_cases "owner" "repo" "main" "/tmp/t"
      ⟨500, "Server Error", fun _ => []⟩).2.2.2
      (by decide) (by decide) (by decide) (by decide)

/-- C9: after remove_embedded_git, no directory named ".git" remains at
any depth (with its full contents); for any pattern of rmtree failures
the walk still completes, every entry not lying under a .git directory
keeps its existence, kind and file content, and every recorded warning
names a failed removal of a path ending in ".git". -/
theorem c9_embedded_git_removal :
    (∀ dest : FsEntries, noGitEntries (remove_embedded_git dest) = true)
    ∧ (∀ (ok : List String → Bool) (dest : FsEntries) (p : List String),
      ".git" ∉ p →
      entryShape (scrubEntries ok [] dest).1 p = entryShape dest p)
    ∧ (∀ (ok : List String → Bool) (dest : FsEntries) (w : List String),
      w ∈ (scrubEntries ok [] dest).2 →
      ok w = false ∧ w.getLast? = some ".git") :=
  ⟨fun dest => noGitEntries_scrub [] dest,
   fun ok dest p hp => entryShape_scrub ok p [] dest hp,
   fun ok dest w hw => scrub_warnings ok [] dest w hw⟩

/-- C9 witness: the spec's example — a destination holding sub/.git/config
next to sub/keep.txt: after sanitation sub/.git is gone, no .git remains,
and the sibling file is untouched. -/
theorem c9_witness :
    remove_embedded_git (.cons "sub" (.dir (.cons ".git"
        (.dir (.cons "config" (.file "") .nil))
        (.cons "keep.txt" (.file "data") .nil))) .nil) =
      .cons "sub" (.dir (.cons "keep.txt" (.file "data") .nil)) .nil
    ∧ noGitEntries (remove_embedded_git (.cons "sub" (.dir (.cons ".git"
        (.dir (.cons "config" (.file "") .nil))
        (.cons "keep.txt" (.file "data") .nil))) .nil)) = true
    ∧ entryShape (remove_embedded_git (.cons "sub" (.dir (.cons ".git"
        (.dir (.cons "config" (.file "") .nil))
        (.cons "keep.txt" (.file "data") .nil))) .nil)) ["sub", "keep.txt"] =
      some (some "data") := by
  refine ⟨rfl, c9_embedded_git_removal.1 _, ?_⟩
  have h := c9_embedded_git_removal.2.1 (fun _ => true)
    (.cons "sub" (.dir (.cons ".git" (.dir (.cons "config" (.file "") .nil))
      (.cons "keep.txt" (.file "data") .nil))) .nil)
    ["sub", "keep.txt"] (by decide)
  exact h.trans rfl

/-- C10: extract_zip merges into the destination: any pre-existing
destination entry whose name differs from every installed top-level
entry is still found unchanged after a successful extraction. -/
theorem c10_merge_preserves_unrelated :
    ∀ (scratch dest res : FsEntries) (n : String),
      (extract_zip (some scratch) dest).1 = .ok res →
      hasName (sourceItems scratch) n = false →
      lookupE res n = lookupE dest n := by
  intro scratch dest res n h hn
  cases scratch with
  | nil => simp [extract_zip] at h
  | cons a v b =>
    have hres : installAll (sourceItems (.cons a v b)) dest = res := by
      simpa [extract_zip] using h
    rw [← hres]
    exact lookupE_installAll_not_hasName (sourceItems (.cons a v b)) dest n hn

/-- C10 witness: installing a single file "x" into a destination holding
"keep" leaves "keep" with its content. -/
theorem c10_witness :
    lookupE (okOr (extract_zip (some (.cons "x" (.file "new") .nil))
        (.cons "keep" (.file "k") .nil)).1 .nil) "keep" = some (.file "k") :=
  (c10_merge_preserves_unrelated (.cons "x" (.file "new") .nil)
    (.cons "keep" (.file "k") .nil)
    (okOr (extract_zip (some (.cons "x" (.file "new") .nil))
      (.cons "keep" (.file "k") .nil)).1 .nil) "keep" rfl rfl).trans rfl

end Gitripper
